import Mathlib

/-!
Shallow embedding of the Exportable File Catalog and Archive Reconciliation
Engine of McmExportTools (src/tools/McmApplicationExporter.py and
src/tools/McmExportLib/McmExporterBase.py), together with theorems settling
the frozen claims about it.

Conventions of the embedding:
* Python strings are Lean String; all character-level manipulation is done on
  the underlying character list so every definition evaluates by kernel
  reduction.
* Python exceptions are modelled with Except; an error value carries the
  message and, for stateful code, the state at the moment the exception was
  raised (mutations performed before the raise survive, as they do in Python).
* External effects (the HTTP catalog fetch, the lxml parse of the package
  description, the persisted definition files, the directory scan, the SMB
  copy) are oracles supplied as inputs, mirroring the interface boundary in
  section 6 of the specification.  Everything inside that boundary is
  translated statement by statement from the source.
* Python hash on str is opaque and run-seeded; it is modelled as an explicit
  function parameter, with no assumption made about it.
-/

/-- Characters of a string (Python iteration over str). -/
def strChars (s : String) : List Char := s.data

/-- String from characters. -/
def chStr (cs : List Char) : String := String.mk cs

/-- Python str.strip(chars): remove leading and trailing characters drawn
from the given set.  Used for strip of quote characters in
get_exportable_files_from_command (McmApplicationExporter.py line 94). -/
def pyStrip (chars : List Char) (s : String) : String :=
  chStr ((((strChars s).dropWhile (fun c => chars.contains c)).reverse.dropWhile
    (fun c => chars.contains c)).reverse)

/-- Python str.rstrip(chars) for a single character set. -/
def pyRstrip (chars : List Char) (s : String) : String :=
  chStr (((strChars s).reverse.dropWhile (fun c => chars.contains c)).reverse)

/-- Python str.replace applied to single characters; models
replace of backslash by forward slash. -/
def pyReplaceChar (a b : Char) (s : String) : String :=
  chStr ((strChars s).map (fun c => if c = a then b else c))

/-- ASCII lower-casing of one character (Python str.lower on the ASCII
range, the only range the extension filter meets). -/
def lowerChar (c : Char) : Char :=
  if 'A' ≤ c ∧ c ≤ 'Z' then Char.ofNat (c.toNat + 32) else c

/-- Python str.lower (ASCII). -/
def pyLower (s : String) : String := chStr ((strChars s).map lowerChar)

/-- Does the string start with the given character sequence
(Python str.startswith). -/
def strStartsWithL (p : List Char) (s : String) : Bool :=
  p.isPrefixOf (strChars s)

/-- Is the first character list a contiguous sublist of the second. -/
def charsInfix (p : List Char) : List Char → Bool
  | [] => p.isEmpty
  | c :: rest => p.isPrefixOf (c :: rest) || charsInfix p rest

/-- Does the string contain the given character sequence
(Python in operator on str). -/
def strContainsSub (p : List Char) (s : String) : Bool :=
  charsInfix p (strChars s)

/-- Split a character list at every occurrence of a separator character,
keeping empty segments (Python str.split(sep) semantics). -/
def splitCharList (c : Char) : List Char → List (List Char)
  | [] => [[]]
  | x :: xs =>
    let r := splitCharList c xs
    if x = c then [] :: r
    else
      match r with
      | [] => [[x]]
      | y :: ys => (x :: y) :: ys

/-- Python s.split(sep) for a one-character separator. -/
def pySplit (c : Char) (s : String) : List String :=
  (splitCharList c (strChars s)).map chStr

/-- Python s.split(sep)[-1]; split always yields a non-empty list
(McmApplicationExporter.py line 203). -/
def pySplitLast (c : Char) (s : String) : String :=
  (pySplit c s).getLastD ""

/-- Python os.path.join (posixpath, two arguments): an absolute second
component replaces the first, otherwise a separator is inserted unless the
first component is empty or already ends with one. -/
def pyJoin (a b : String) : String :=
  if strStartsWithL ['/'] b then b
  else if a = "" ∨ (strChars a).getLast? = some '/' then a ++ b
  else a ++ "/" ++ b

/-- Extension part of Python os.path.splitext (posixpath): the suffix of the
basename from its last dot, where the leading run of dots of the basename
never starts an extension. -/
def pySplitextExt (s : String) : String :=
  let base := (splitCharList '/' (strChars s)).getLastD []
  let rest := base.dropWhile (fun c => c = '.')
  if rest.contains '.' then
    chStr ('.' :: (rest.reverse.takeWhile (fun c => c ≠ '.')).reverse)
  else ""

/-- Whitespace characters of the shlex lexer (shlex.whitespace). -/
def shlexWhitespace : List Char := [' ', '\t', '\r', '\n']

/-- Quote characters of the shlex lexer (shlex.quotes). -/
def shlexQuotes : List Char := ['\'', '\"']

/-- Core loop of shlex.split in non-posix mode with whitespace_split: tokens
are separated by whitespace, a quote keeps whitespace inside the token and
the quote characters themselves are preserved; end of input inside a quoted
region raises the no-closing-quotation ValueError. -/
def shlexSplitAux : List Char → Option Char → List Char → List String →
    Except String (List String)
  | [], some _, _, _ => .error "No closing quotation"
  | [], none, cur, acc =>
    .ok (acc ++ if cur.isEmpty then [] else [chStr cur.reverse])
  | c :: rest, some q, cur, acc =>
    shlexSplitAux rest (if c = q then none else some q) (c :: cur) acc
  | c :: rest, none, cur, acc =>
    if shlexWhitespace.contains c then
      shlexSplitAux rest none []
        (acc ++ if cur.isEmpty then [] else [chStr cur.reverse])
    else if shlexQuotes.contains c then
      shlexSplitAux rest (some c) (c :: cur) acc
    else
      shlexSplitAux rest none (c :: cur) acc

/-- Python shlex.split(s, posix=False) as called on McmApplicationExporter.py
line 91. -/
def shlexSplit (s : String) : Except String (List String) :=
  shlexSplitAux (strChars s) none [] []

/-- Default recognized extensions of get_exportable_files_from_command
(McmApplicationExporter.py line 86). -/
def defaultValidExtensions : List String := ["ps1", "txt", "bat", "cmd"]

/-- Loop body of get_exportable_files_from_command
(McmApplicationExporter.py lines 93 to 102) applied to one token: strip
surrounding quote characters, strip a leading dot-backslash marker, exclude
network style paths and URI tokens, keep the token when its extension is
recognized, normalising backslashes to forward slashes. -/
def tokenToFile (lower_exts : List String) (command_part : String) :
    Option String :=
  let stripped_part := pyStrip ['\"', '\''] command_part
  let stripped_part :=
    if strStartsWithL ['.', '\\'] stripped_part then
      chStr ((strChars stripped_part).drop 2)
    else stripped_part
  if strStartsWithL ['\\', '\\'] stripped_part ∨
      strContainsSub [':', '/', '/'] stripped_part then none
  else if lower_exts.contains
      (chStr ((strChars (pyLower (pySplitextExt stripped_part))).dropWhile
        (fun c => c = '.'))) then
    some (pyReplaceChar '\\' '/' stripped_part)
  else none

/-- get_exportable_files_from_command (McmApplicationExporter.py lines
83 to 103): shell-style tokenization followed by the per-token filter; the
tokenizer error of a malformed quote is not caught and propagates. -/
def get_exportable_files_from_command (input_string : String)
    (valid_extensions : List String := defaultValidExtensions) :
    Except String (List String) :=
  let lower_exts := valid_extensions.map pyLower
  match shlexSplit input_string with
  | .error e => .error e
  | .ok split_command => .ok (split_command.filterMap (tokenToFile lower_exts))

/-- convert_unc_path (McmExporterBase.py lines 128 to 131): strip trailing
backslashes, then turn every backslash into a forward slash. -/
def convert_unc_path (unc_path : String) : String :=
  pyReplaceChar '\\' '/' (pyRstrip ['\\'] unc_path)

/-- One catalog entry, the dictionary built on McmApplicationExporter.py
lines 122 to 126. -/
structure CatalogEntry where
  source_path : String
  destination_path : String
  file_relative_path : String
  deriving DecidableEq, Repr

/-- One application record as consumed by execute_shell: the fields of the
fetched SMS_Application object that the reconciler reads.  ModelName and
CIVersion come from the list query; SDMPackageXML from the detail query
(empty when the detail query returned nothing). -/
structure App where
  ModelName : String
  CIVersion : Int
  SDMPackageXML : String
  deriving DecidableEq, Repr

/-- One Content node under the Installer node: a ContentId attribute and the
Location text nodes beneath it. -/
structure ContentNode where
  contentId : String
  locations : List String
  deriving DecidableEq, Repr

/-- The Installer node of a deployment type, holding exactly the node
collections inspect_deployment_type_for_exportable_files queries by xpath.
uninstallContentIds models the CustomData/UninstallContent/@ContentId
attributes present in the document; the source never queries them (its
uninstall branch re-queries CustomData/InstallContent, line 176). -/
structure InstallerNode where
  installContentIds : List String
  uninstallContentIds : List String
  contents : List ContentNode
  installCommandLines : List String
  uninstallSettings : List String
  uninstallCommandLines : List String
  deriving DecidableEq, Repr

/-- A DeploymentType element of the AppMgmtDigest document. -/
structure DeploymentType where
  installers : List InstallerNode
  logicalNames : List String
  deriving DecidableEq, Repr

/-- The xpath Contents/Content[@ContentId=cid]/Location/text() evaluated on
an Installer node (McmApplicationExporter.py lines 157 and 179): the Location
texts of every Content child whose ContentId attribute equals cid, in
document order. -/
def contentLocations (installer : InstallerNode) (cid : String) :
    List String :=
  ((installer.contents.filter (fun c => c.contentId = cid)).map
    (fun c => c.locations)).flatten

/-- Mutable state of a reconciliation run: the registry collections
initialized in McmExporterBase.__init__ (lines 336 to 341), the
files_export_path attribute set per application (line 207), the local
variable current_app_short_models of execute_shell, and an effect trace of
definition writes, file unlinks and recursive directory deletes. -/
structure RunState where
  exportable_files : List CatalogEntry
  exportable_files_by_srcdst_hash : List (String × CatalogEntry)
  source_files_by_sourcepathhash : List (String × String)
  unused_archived_content_files : List String
  files_export_path : String
  current_app_short_models : List String
  written_definitions : List (String × App)
  deleted_files : List String
  deleted_trees : List String
  deriving DecidableEq, Repr

/-- State of a freshly constructed exporter. -/
def initRunState : RunState :=
  { exportable_files := []
    exportable_files_by_srcdst_hash := []
    source_files_by_sourcepathhash := []
    unused_archived_content_files := []
    files_export_path := ""
    current_app_short_models := []
    written_definitions := []
    deleted_files := []
    deleted_trees := [] }

/-- Python list.remove: drop the first occurrence. -/
def removeFirst : List String → String → List String
  | [], _ => []
  | x :: xs, y => if x = y then xs else x :: removeFirst xs y

/-- new_exportable_file_info (McmApplicationExporter.py lines 105 to 135):
normalize the root, build source and destination paths, fingerprint the pair
with the run's string hash, return unchanged when the fingerprint is already
catalogued, otherwise append the entry, index it, record the source path and
drop the destination from the unused archive snapshot. -/
def new_exportable_file_info (pyhash : String → Int) (st : RunState)
    (root_path file_relative_path files_export_path : String) : RunState :=
  let normalized_root_path := convert_unc_path root_path
  let source_path := pyJoin normalized_root_path file_relative_path
  let destination_path := pyJoin files_export_path file_relative_path
  let src_path_hash := toString (pyhash source_path)
  let dst_path_hash := toString (pyhash destination_path)
  let srcdst_hash := src_path_hash ++ "_" ++ dst_path_hash
  if st.exportable_files_by_srcdst_hash.any (fun kv => kv.1 = srcdst_hash) then
    st
  else
    let exportable_file_info : CatalogEntry :=
      { source_path := source_path
        destination_path := destination_path
        file_relative_path := file_relative_path }
    let st :=
      { st with
        exportable_files := st.exportable_files ++ [exportable_file_info]
        exportable_files_by_srcdst_hash :=
          st.exportable_files_by_srcdst_hash ++
            [(srcdst_hash, exportable_file_info)] }
    let st :=
      if st.source_files_by_sourcepathhash.any
          (fun kv => kv.1 = src_path_hash) then st
      else
        { st with
          source_files_by_sourcepathhash :=
            st.source_files_by_sourcepathhash ++
              [(src_path_hash, source_path)] }
    if st.unused_archived_content_files.contains destination_path then
      { st with
        unused_archived_content_files :=
          removeFirst st.unused_archived_content_files destination_path }
    else st

/-- Install phase of inspect_deployment_type_for_exportable_files
(McmApplicationExporter.py lines 151 to 165): the local
install_content_location starts as the empty string; a single install
content id is resolved by indexing the Location xpath result (IndexError
when no Content matches) and a single install command has its files
registered under the Install destination.  Returns the state and the final
value of install_content_location. -/
def installPhase (pyhash : String → Int) (st : RunState)
    (installer : InstallerNode) (dt_files_export_path : String) :
    Except (String × RunState) (RunState × String) :=
  match installer.installContentIds with
  | [install_content_id] =>
    match contentLocations installer install_content_id with
    | [] => .error ("IndexError: list index out of range", st)
    | install_content_location :: _ =>
      match installer.installCommandLines with
      | [install_command] =>
        match get_exportable_files_from_command install_command with
        | .error e => .error (e, st)
        | .ok installer_exportable_files =>
          .ok (installer_exportable_files.foldl
            (fun s ief => new_exportable_file_info pyhash s
              install_content_location ief
              (pyJoin dt_files_export_path "Install")) st,
            install_content_location)
      | _ => .ok (st, install_content_location)
  | _ => .ok (st, "")

/-- Resolution of the uninstall content location (McmApplicationExporter.py
lines 172 to 180): SameAsInstall reuses the install phase's location;
otherwise the source re-queries CustomData/InstallContent (line 176, not
UninstallContent) and, when that list is singular, indexes
install_content_ids (line 178) and resolves that id's Location; when the
re-queried list is not singular nothing is assigned, which the none result
records. -/
def uninstallLocationResolve (installer : InstallerNode)
    (install_content_ids : List String) (install_content_location : String)
    (st1 : RunState) (uninstall_setting : String) :
    Except (String × RunState) (Option String) :=
  if uninstall_setting = "SameAsInstall" then
    .ok (some install_content_location)
  else
    match installer.installContentIds with
    | [_] =>
      match install_content_ids with
      | [] => .error ("IndexError: list index out of range", st1)
      | uninstall_content_id :: _ =>
        match contentLocations installer uninstall_content_id with
        | [] => .error ("IndexError: list index out of range", st1)
        | l :: _ => .ok (some l)
    | _ => .ok none

/-- inspect_deployment_type_for_exportable_files (McmApplicationExporter.py
lines 137 to 189).  Deployment types without exactly one Installer node or
exactly one LogicalName are skipped.  The install phase is installPhase
above.  The uninstall phase returns early when the UninstallSetting node
is not singular or says NoneRequired; the location resolution is
uninstallLocationResolve above, and a none result from it means the
logging statement on line 181 reads the local uninstall_content_location
before any assignment, raising UnboundLocalError. -/
def inspect_deployment_type_for_exportable_files (pyhash : String → Int)
    (st : RunState) (deployment_type : DeploymentType) :
    Except (String × RunState) RunState :=
  match deployment_type.installers, deployment_type.logicalNames with
  | [installer], [dt_logical_name] =>
    match installPhase pyhash st installer
        (pyJoin st.files_export_path dt_logical_name) with
    | .error es => .error es
    | .ok (st1, install_content_location) =>
      -- Uninstall phase, lines 167 to 189.
      match installer.uninstallSettings with
      | [uninstall_setting] =>
        if uninstall_setting = "NoneRequired" then .ok st1
        else
          match uninstallLocationResolve installer installer.installContentIds
              install_content_location st1 uninstall_setting with
          | .error es => .error es
          | .ok none =>
            .error ("UnboundLocalError: local variable referenced before assignment", st1)
          | .ok (some uninstall_content_location) =>
            match installer.uninstallCommandLines with
            | [uninstall_command] =>
              match get_exportable_files_from_command uninstall_command with
              | .error e => .error (e, st1)
              | .ok uninstaller_exportable_files =>
                .ok (uninstaller_exportable_files.foldl
                  (fun s uef => new_exportable_file_info pyhash s
                    uninstall_content_location uef
                    (pyJoin (pyJoin st.files_export_path dt_logical_name)
                      "Uninstall")) st1)
            | _ => .ok st1
      | _ => .ok st1
  | _, _ => .ok st

/-- Inspect every deployment type in order (the loop on
McmApplicationExporter.py lines 223 to 224); an uncaught exception inside
one inspection stops the loop. -/
def inspectAll (pyhash : String → Int) (st : RunState) :
    List DeploymentType → Except (String × RunState) RunState
  | [] => .ok st
  | d :: rest =>
    match inspect_deployment_type_for_exportable_files pyhash st d with
    | .error es => .error es
    | .ok st' => inspectAll pyhash st' rest

/-- Parameter names that try_copy_smb_file_to_local requires beyond self
(McmExporterBase.py line 259). -/
def tryCopyRequiredParams : List String :=
  ["file_relative_path", "smb_source_path", "local_destination_path"]

/-- Keyword arguments supplied at the transfer call site
(McmApplicationExporter.py lines 233 to 236). -/
def transferCallKeywords : List String :=
  ["smb_source_path", "local_destination_path"]

/-- Required parameters a Python call leaves unbound; a non-empty result
makes the call itself raise TypeError before the callee body runs. -/
def missingRequiredArgs (params provided : List String) : List String :=
  params.filter (fun p => ¬ provided.contains p)

/-- try_copy_smb_file_to_local (McmExporterBase.py lines 259 to 287): mount
the share, create the destination parents and copy; every exception inside
the body is caught and turned into a false result, a successful copy removes
the destination from the unused archive snapshot and returns true.  The
mount, makedirs and copy2 effects are abstracted into the copyOk oracle. -/
def try_copy_smb_file_to_local (copyOk : String → String → Bool)
    (st : RunState) (smb_source_path local_destination_path : String) :
    Bool × RunState :=
  if copyOk smb_source_path local_destination_path then
    let st :=
      if st.unused_archived_content_files.contains local_destination_path then
        { st with
          unused_archived_content_files :=
            removeFirst st.unused_archived_content_files
              local_destination_path }
      else st
    (true, st)
  else (false, st)

/-- Transfer pass of execute_shell (McmApplicationExporter.py lines 231 to
237).  The call site passes only smb_source_path and local_destination_path
by keyword, leaving the required file_relative_path parameter unbound, so in
Python the call raises TypeError before try_copy_smb_file_to_local begins;
the guard reproduces that argument binding check. -/
def transferAll (copyOk : String → String → Bool) (st : RunState) :
    List CatalogEntry → Except (String × RunState) RunState
  | [] => .ok st
  | f :: rest =>
    if (missingRequiredArgs tryCopyRequiredParams transferCallKeywords).isEmpty
    then
      let r := try_copy_smb_file_to_local copyOk st f.source_path
        f.destination_path
      transferAll copyOk r.2 rest
    else
      .error
        ("TypeError: try_copy_smb_file_to_local() missing 1 required positional argument: file_relative_path",
          st)

/-- Prelude of the per-application loop body (McmApplicationExporter.py
lines 203 to 213): derive the short model name and append it to the run's
list, point files_export_path at the application's archived_content folder
and overwrite the persisted definition file with the fetched record. -/
def appPrelude (local_repo : String) (st : RunState) (app : App) : RunState :=
  let short_model := pySplitLast '/' app.ModelName
  let base_export_path := pyJoin local_repo short_model
  { st with
    current_app_short_models := st.current_app_short_models ++ [short_model]
    files_export_path := pyJoin base_export_path "archived_content"
    written_definitions :=
      st.written_definitions ++
        [(pyJoin base_export_path "application.json", app)] }

/-- Continuation of the loop body once a document parsed (lines 220 to
229): inspect every deployment type, then compare the persisted revision
with the fetched one; the comparison only chooses between logging paths
that both end the loop body. -/
def processAppDoc (pyhash : String → Int) (archivedCIVersion : String → Int)
    (app_definition_path : String) (latest_app_revision : Int)
    (st1 : RunState) (deployment_types : List DeploymentType) :
    Except (String × RunState) RunState :=
  match inspectAll pyhash st1 deployment_types with
  | .error es => .error es
  | .ok st2 =>
    if archivedCIVersion app_definition_path = latest_app_revision then
      .ok st2
    else .ok st2

/-- Per-application loop body of execute_shell (McmApplicationExporter.py
lines 202 to 229).  The definition file is always rewritten before the
document is examined; an empty document ends the body; the document parse
(convert_sdmpackagexml plus the DeploymentType xpath, behind the parseSdm
oracle) and the deployment type inspections may raise, and nothing in the
loop catches the exception. -/
def processApp (pyhash : String → Int)
    (parseSdm : String → Except String (List DeploymentType))
    (archivedCIVersion : String → Int) (local_repo : String) (st : RunState)
    (app : App) : Except (String × RunState) RunState :=
  let st1 := appPrelude local_repo st app
  let app_definition_path :=
    pyJoin (pyJoin local_repo (pySplitLast '/' app.ModelName))
      "application.json"
  if app.SDMPackageXML = "" then .ok st1
  else
    match parseSdm app.SDMPackageXML with
    | .error e => .error (e, st1)
    | .ok deployment_types =>
      processAppDoc pyhash archivedCIVersion app_definition_path
        app.CIVersion st1 deployment_types

/-- The application loop of execute_shell; an uncaught exception in one
iteration stops the loop (there is no per-application handler). -/
def processApps (pyhash : String → Int)
    (parseSdm : String → Except String (List DeploymentType))
    (archivedCIVersion : String → Int) (local_repo : String) (st : RunState) :
    List App → Except (String × RunState) RunState
  | [] => .ok st
  | a :: rest =>
    match processApp pyhash parseSdm archivedCIVersion local_repo st a with
    | .error es => .error es
    | .ok st' => processApps pyhash parseSdm archivedCIVersion local_repo
        st' rest

/-- Can the logging expression modelname.split('/')[1] on
McmApplicationExporter.py line 200 be evaluated for this record; a model
name without a slash makes the index raise before the application loop. -/
def modelNameIndexable (a : App) : Bool :=
  2 ≤ (pySplit '/' a.ModelName).length

/-- Command line arguments read by execute_shell. -/
structure Args where
  export_repo_path : String
  remove_deleted : Bool

/-- External collaborators of a run, fixed before execute_shell starts:
the string hash of the Python runtime, the document parser
(convert_sdmpackagexml plus the DeploymentType xpath), the persisted
CIVersion read through load_json per definition path, the fetched
application list, the archived application directory names (os.listdir),
the archive snapshot (get_archived_content_files at depth 4) and the SMB
copy outcome oracle. -/
structure Env where
  pyhash : String → Int
  parseSdm : String → Except String (List DeploymentType)
  archivedCIVersion : String → Int
  apps : List App
  archivedShortModels : List String
  snapshotFiles : List String
  copyOk : String → String → Bool

/-- State of the run after the snapshot on line 198: the registry
collections are those of a fresh exporter, and the unused archive file list
has been extended with the depth-4 scan of the archive. -/
def runStart (env : Env) : RunState :=
  { initRunState with unused_archived_content_files := env.snapshotFiles }

/-- execute_shell (McmApplicationExporter.py lines 191 to 261): snapshot the
archive, log the model names (which indexes split('/')[1] for every record),
run the application loop, run the transfer pass, then, only when
remove_deleted was requested, unlink every file still in the unused
snapshot, remove empty directories (a directory-only effect) and delete the
archived application directories whose short names the run did not see.  The
surrounding try block re-raises every exception as ValueError, so any error
below aborts the run with the deletions not yet performed. -/
def execute_shell (env : Env) (args : Args) :
    Except (String × RunState) RunState :=
  let local_repo := pyJoin args.export_repo_path "Application"
  let archived_app_short_models := env.archivedShortModels
  let st0 := runStart env
  if env.apps.all modelNameIndexable then
    match processApps env.pyhash env.parseSdm env.archivedCIVersion local_repo
        st0 env.apps with
    | .error es => .error es
    | .ok st1 =>
      match transferAll env.copyOk st1 st1.exportable_files with
      | .error es => .error es
      | .ok st2 =>
        if args.remove_deleted = false then .ok st2
        else
          let st3 :=
            { st2 with
              deleted_files :=
                st2.deleted_files ++ st2.unused_archived_content_files }
          let st4 :=
            { st3 with
              deleted_trees :=
                st3.deleted_trees ++
                  ((archived_app_short_models.filter
                    (fun a => ¬ st3.current_app_short_models.contains a)).map
                    (fun a => pyJoin local_repo a)) }
          .ok st4
  else .error ("IndexError: list index out of range", st0)

/-- Did the run abort with an exception. -/
def isAborted : Except (String × RunState) RunState → Bool
  | .error _ => true
  | .ok _ => false

/-- Message of the exception that aborted a run, empty for a clean run. -/
def runErrMsg : Except (String × RunState) RunState → String
  | .error (e, _) => e
  | .ok _ => ""

/-- State reached by a run, whether it aborted or finished. -/
def runStateOf : Except (String × RunState) RunState → RunState
  | .error (_, s) => s
  | .ok s => s

/-- State carried by an install phase result, whether it raised or not. -/
def installPhaseState : Except (String × RunState) (RunState × String) →
    RunState
  | .error (_, s) => s
  | .ok (s, _) => s

/-- Arguments of one registration call into the registry
(one invocation of new_exportable_file_info). -/
structure RegCall where
  root_path : String
  file_relative_path : String
  files_export_path : String
  deriving DecidableEq, Repr

/-- One registration call. -/
def register1 (pyhash : String → Int) (st : RunState) (c : RegCall) :
    RunState :=
  new_exportable_file_info pyhash st c.root_path c.file_relative_path
    c.files_export_path

/-- A sequence of registration calls, in order. -/
def registerAll (pyhash : String → Int) (st : RunState) :
    List RegCall → RunState
  | [] => st
  | c :: rest => registerAll pyhash (register1 pyhash st c) rest

/-- The (source, destination) pair a registration call normalizes to
(McmApplicationExporter.py lines 111 to 113). -/
def regPair (c : RegCall) : String × String :=
  (pyJoin (convert_unc_path c.root_path) c.file_relative_path,
    pyJoin c.files_export_path c.file_relative_path)

/-- The fingerprint new_exportable_file_info computes for a call
(lines 114 to 116). -/
def fingerprintOf (pyhash : String → Int) (c : RegCall) : String :=
  toString (pyhash (regPair c).1) ++ "_" ++ toString (pyhash (regPair c).2)

/-- The catalog entry a fresh registration call appends. -/
def entryOf (c : RegCall) : CatalogEntry :=
  { source_path := (regPair c).1
    destination_path := (regPair c).2
    file_relative_path := c.file_relative_path }

/-- A concrete Python string hash stand-in used by the concrete runs; the
theorems that quantify over the hash never assume anything about it. -/
def pyhashLen : String → Int := fun s => (s.data.length : Int)

/-- Concrete deployment type: one installer, one content id resolving to an
SMB location, one install command naming install.ps1, no uninstall
setting. -/
def installerC1 : InstallerNode :=
  { installContentIds := ["Content_1"]
    uninstallContentIds := []
    contents := [{ contentId := "Content_1", locations := ["\\\\srv\\share\\pkg"] }]
    installCommandLines := ["install.ps1"]
    uninstallSettings := []
    uninstallCommandLines := [] }

def dtC1 : DeploymentType :=
  { installers := [installerC1], logicalNames := ["DT_1"] }

def appC1 : App :=
  { ModelName := "ScopeId_X/Application_1", CIVersion := 3
    SDMPackageXML := "XMLDOC1" }

/-- Archive snapshot path that the run's single catalog entry re-registers. -/
def usedArchivePath : String :=
  "/repo/Application/Application_1/archived_content/DT_1/Install/install.ps1"

/-- Archive snapshot path no catalog entry matches: a true orphan. -/
def orphanArchivePath : String :=
  "/repo/Application/Application_1/archived_content/DT_1/Install/old.ps1"

/-- Environment of the C1 run: one application whose document registers one
file, a snapshot holding that file plus an orphan, and an archived
application directory the fetch no longer returns. -/
def envC1 : Env :=
  { pyhash := pyhashLen
    parseSdm := fun s =>
      if s = "XMLDOC1" then .ok [dtC1] else .error "MalformedDocument"
    archivedCIVersion := fun _ => 3
    apps := [appC1]
    archivedShortModels := ["Application_1", "Application_gone"]
    snapshotFiles := [usedArchivePath, orphanArchivePath]
    copyOk := fun _ _ => true }

def argsPrune : Args := { export_repo_path := "/repo", remove_deleted := true }

def argsNoPrune : Args :=
  { export_repo_path := "/repo", remove_deleted := false }

/-- Application whose package description does not parse. -/
def appBad : App :=
  { ModelName := "ScopeId_X/Application_bad", CIVersion := 1
    SDMPackageXML := "BADXML" }

/-- Application after the failing one; its document is empty. -/
def appGood : App :=
  { ModelName := "ScopeId_X/Application_good", CIVersion := 2
    SDMPackageXML := "" }

def envC2 : Env :=
  { pyhash := pyhashLen
    parseSdm := fun s =>
      if s = "BADXML" then .error "MalformedDocumentError" else .ok []
    archivedCIVersion := fun _ => 0
    apps := [appBad, appGood]
    archivedShortModels := []
    snapshotFiles := []
    copyOk := fun _ _ => true }

/-- A catalog entry for the transfer pass. -/
def entryC3 : CatalogEntry :=
  { source_path := "//srv/share/pkg/install.ps1"
    destination_path :=
      "/repo/Application/Application_1/archived_content/DT_1/Install/install.ps1"
    file_relative_path := "install.ps1" }

/-- Deployment type whose document carries a distinct uninstall content id
(Content_2, resolving to a different location) next to the install content
id Content_1, an uninstall setting that is neither NoneRequired nor
SameAsInstall, and a single uninstall command. -/
def installerC4 : InstallerNode :=
  { installContentIds := ["Content_1"]
    uninstallContentIds := ["Content_2"]
    contents :=
      [{ contentId := "Content_1", locations := ["\\\\srv\\share\\instloc"] },
        { contentId := "Content_2", locations := ["\\\\srv\\share\\uninstloc"] }]
    installCommandLines := []
    uninstallSettings := ["Uninstall"]
    uninstallCommandLines := ["remove.ps1"] }

def dtC4 : DeploymentType :=
  { installers := [installerC4], logicalNames := ["DT_1"] }

def stExportPath : RunState :=
  { initRunState with
    files_export_path := "/repo/Application/Application_1/archived_content" }

/-- Deployment type whose single install command has an unterminated
quote. -/
def installerC5 : InstallerNode :=
  { installContentIds := ["Content_1"]
    uninstallContentIds := []
    contents := [{ contentId := "Content_1", locations := ["\\\\srv\\share\\pkg"] }]
    installCommandLines := ["install.ps1 \"unterminated"]
    uninstallSettings := []
    uninstallCommandLines := [] }

def dtC5 : DeploymentType :=
  { installers := [installerC5], logicalNames := ["DT_1"] }

def appC5 : App :=
  { ModelName := "ScopeId_X/Application_5", CIVersion := 1
    SDMPackageXML := "XMLDOC5" }

def envC5 : Env :=
  { pyhash := pyhashLen
    parseSdm := fun s =>
      if s = "XMLDOC5" then .ok [dtC5] else .error "MalformedDocument"
    archivedCIVersion := fun _ => 0
    apps := [appC5]
    archivedShortModels := []
    snapshotFiles := []
    copyOk := fun _ _ => true }

/-- Two registration calls whose raw roots differ only by a trailing
backslash, so both normalize to the same (source, destination) pair. -/
def regCallA : RegCall :=
  { root_path := "\\\\server\\share\\"
    file_relative_path := "install.ps1"
    files_export_path := "/repo/Application/A/archived_content/DT/Install" }

def regCallB : RegCall :=
  { root_path := "\\\\server\\share"
    file_relative_path := "install.ps1"
    files_export_path := "/repo/Application/A/archived_content/DT/Install" }

/-- Deployment type meeting the C10 hypotheses: singular installer and
logical name, uninstall setting present, singular and neither NoneRequired
nor SameAsInstall, and an install content id count of zero. -/
def installerC10 : InstallerNode :=
  { installContentIds := []
    uninstallContentIds := ["Content_9"]
    contents := []
    installCommandLines := []
    uninstallSettings := ["Uninstall"]
    uninstallCommandLines := ["remove.ps1"] }

def dtC10 : DeploymentType :=
  { installers := [installerC10], logicalNames := ["DT_1"] }

/-! Helper lemmas: field preservation and registry behaviour. -/

theorem new_info_written (pyhash : String → Int) (st : RunState)
    (r f e : String) :
    (new_exportable_file_info pyhash st r f e).written_definitions =
      st.written_definitions := by
  simp only [new_exportable_file_info]
  repeat' split
  all_goals rfl

theorem foldl_new_info_written (pyhash : String → Int) (loc path : String) :
    ∀ (l : List String) (st : RunState),
    ((l.foldl (fun s x => new_exportable_file_info pyhash s loc x path)
      st).written_definitions) = st.written_definitions
  | [], _ => rfl
  | x :: xs, st => by
    rw [List.foldl_cons, foldl_new_info_written pyhash loc path xs,
      new_info_written]

theorem installPhase_written (pyhash : String → Int) (st : RunState)
    (installer : InstallerNode) (p : String) :
    (installPhaseState (installPhase pyhash st installer p)).written_definitions
      = st.written_definitions := by
  unfold installPhase
  repeat' split
  all_goals simp [installPhaseState, foldl_new_info_written]

theorem uninstallLocationResolve_error (installer : InstallerNode)
    (ids : List String) (loc : String) (st1 : RunState) (s : String)
    (es : String × RunState)
    (h : uninstallLocationResolve installer ids loc st1 s = .error es) :
    es.2 = st1 := by
  unfold uninstallLocationResolve at h
  repeat' split at h
  all_goals try simp_all
  all_goals exact congrArg Prod.snd h.symm

theorem inspect_written (pyhash : String → Int) (st : RunState)
    (dt : DeploymentType) :
    (runStateOf (inspect_deployment_type_for_exportable_files pyhash st
      dt)).written_definitions = st.written_definitions := by
  unfold inspect_deployment_type_for_exportable_files
  split
  case h_2 => rfl
  next installer n heq1 heq2 =>
    have h := installPhase_written pyhash st installer
      (pyJoin st.files_export_path n)
    cases hIP : installPhase pyhash st installer
        (pyJoin st.files_export_path n) with
    | error es =>
      rw [hIP] at h
      simpa [runStateOf, installPhaseState] using h
    | ok p =>
      obtain ⟨st1, loc⟩ := p
      rw [hIP] at h
      simp only [installPhaseState] at h
      repeat' split
      all_goals try simp_all [runStateOf, foldl_new_info_written]
      all_goals
        rename_i heqR
        rw [uninstallLocationResolve_error _ _ _ _ _ _ heqR]
        exact h

theorem inspectAll_written (pyhash : String → Int) :
    ∀ (dts : List DeploymentType) (st : RunState),
    (runStateOf (inspectAll pyhash st dts)).written_definitions =
      st.written_definitions
  | [], _ => rfl
  | d :: rest, st => by
    unfold inspectAll
    cases hI : inspect_deployment_type_for_exportable_files pyhash st d with
    | error es =>
      have h := inspect_written pyhash st d
      rw [hI] at h
      simpa [runStateOf] using h
    | ok st' =>
      have h := inspect_written pyhash st d
      rw [hI] at h
      simp only [runStateOf] at h
      show (runStateOf (inspectAll pyhash st' rest)).written_definitions =
        st.written_definitions
      rw [inspectAll_written pyhash rest st']
      exact h

theorem register1_hit (pyhash : String → Int) (st : RunState) (c : RegCall)
    (h : st.exportable_files_by_srcdst_hash.any
      (fun kv => kv.1 = fingerprintOf pyhash c) = true) :
    register1 pyhash st c = st := by
  unfold register1 new_exportable_file_info
  exact if_pos h

theorem register1_fresh (pyhash : String → Int) (st : RunState) (c : RegCall)
    (h : st.exportable_files_by_srcdst_hash.any
      (fun kv => kv.1 = fingerprintOf pyhash c) = false) :
    (register1 pyhash st c).exportable_files =
      st.exportable_files ++ [entryOf c] ∧
    (register1 pyhash st c).exportable_files_by_srcdst_hash =
      st.exportable_files_by_srcdst_hash ++
        [(fingerprintOf pyhash c, entryOf c)] := by
  simp only [register1, new_exportable_file_info]
  rw [if_neg (by simp only [Bool.not_eq_true]; exact h)]
  constructor
  · split
    · split
      · rfl
      · rfl
    · split
      · rfl
      · rfl
  · split
    · split
      · rfl
      · rfl
    · split
      · rfl
      · rfl

theorem registerAll_noop (pyhash : String → Int) (st : RunState) :
    ∀ (l : List RegCall),
    (∀ d ∈ l, st.exportable_files_by_srcdst_hash.any
      (fun kv => kv.1 = fingerprintOf pyhash d) = true) →
    registerAll pyhash st l = st
  | [], _ => rfl
  | d :: ds, hctx => by
    unfold registerAll
    rw [register1_hit pyhash st d (hctx d (List.mem_cons_self d ds))]
    exact registerAll_noop pyhash st ds
      (fun x hx => hctx x (List.mem_cons_of_mem d hx))

theorem fingerprintOf_congr (pyhash : String → Int) (c d : RegCall)
    (h : regPair d = regPair c) :
    fingerprintOf pyhash d = fingerprintOf pyhash c := by
  unfold fingerprintOf
  rw [h]

theorem processAppDoc_eq (pyhash : String → Int) (arch : String → Int)
    (adp : String) (civ : Int) (st1 : RunState)
    (dts : List DeploymentType) :
    processAppDoc pyhash arch adp civ st1 dts = inspectAll pyhash st1 dts := by
  unfold processAppDoc
  cases hI : inspectAll pyhash st1 dts with
  | error es => rfl
  | ok st2 => exact ite_self _

theorem processApp_eq_inspectAll (pyhash : String → Int)
    (parseSdm : String → Except String (List DeploymentType))
    (arch : String → Int) (lr : String) (st : RunState) (app : App)
    (dts : List DeploymentType) (hdoc : app.SDMPackageXML ≠ "")
    (hp : parseSdm app.SDMPackageXML = .ok dts) :
    processApp pyhash parseSdm arch lr st app =
      inspectAll pyhash (appPrelude lr st app) dts := by
  simp only [processApp]
  rw [if_neg hdoc, hp]
  exact processAppDoc_eq pyhash arch
    (pyJoin (pyJoin lr (pySplitLast '/' app.ModelName)) "application.json")
    app.CIVersion (appPrelude lr st app) dts

/-! Claim theorems. -/

/-- C1: the claim states that with prune mode enabled a snapshot file is
deleted exactly when no registered CatalogEntry matches it.  The code cannot
deliver this: in the concrete C1 run prune is enabled, one entry is
registered, and the orphan snapshot file is matched by no entry, yet the
transfer loop aborts the run with a TypeError (its call site omits the
required file_relative_path parameter), so the deletion phase is never
reached and nothing at all is deleted. -/
theorem c1_prune_unreachable_with_registered_entry :
    argsPrune.remove_deleted = true ∧
    envC1.snapshotFiles = [usedArchivePath, orphanArchivePath] ∧
    (runStateOf (execute_shell envC1 argsPrune)).exportable_files.length =
      1 ∧
    (runStateOf
      (execute_shell envC1 argsPrune)).unused_archived_content_files =
      [orphanArchivePath] ∧
    isAborted (execute_shell envC1 argsPrune) = true ∧
    runErrMsg (execute_shell envC1 argsPrune) =
      "TypeError: try_copy_smb_file_to_local() missing 1 required positional argument: file_relative_path" ∧
    (runStateOf (execute_shell envC1 argsPrune)).deleted_files = [] ∧
    (runStateOf (execute_shell envC1 argsPrune)).deleted_trees = [] :=
  ⟨by rfl, by rfl, by rfl, by rfl, by rfl, by rfl, by rfl, by rfl⟩

/-- C2 counterexample: a run over two applications whose first document
fails to parse aborts with that error after writing only the first
definition file; the claim's statement that the reconciler catches the
error and continues with the remaining applications is false. -/
theorem c2_single_failure_aborts_run_counterexample :
    envC2.apps.length = 2 ∧
    isAborted (execute_shell envC2 argsNoPrune) = true ∧
    runErrMsg (execute_shell envC2 argsNoPrune) = "MalformedDocumentError" ∧
    (runStateOf (execute_shell envC2 argsNoPrune)).written_definitions.map
      Prod.fst = ["/repo/Application/Application_bad/application.json"] :=
  ⟨by rfl, by rfl, by rfl, by rfl⟩

/-- C2 amended: when an application's package description inspection fails,
the failing application's definition file has already been written (the
write precedes the parse), but the error is not caught per application: it
propagates, no later application is processed, and the whole run aborts
with that error. -/
theorem c2_inspection_failure_propagates (env : Env) (args : Args)
    (app : App) (rest : List App) (e : String)
    (happs : env.apps = app :: rest)
    (hidx : (app :: rest).all modelNameIndexable = true)
    (hdoc : app.SDMPackageXML ≠ "")
    (hparse : env.parseSdm app.SDMPackageXML = .error e) :
    isAborted (execute_shell env args) = true ∧
    runErrMsg (execute_shell env args) = e ∧
    (runStateOf (execute_shell env args)).written_definitions =
      [(pyJoin (pyJoin (pyJoin args.export_repo_path "Application")
        (pySplitLast '/' app.ModelName)) "application.json", app)] := by
  have hPA : processApp env.pyhash env.parseSdm env.archivedCIVersion
      (pyJoin args.export_repo_path "Application") (runStart env) app =
      .error (e, appPrelude (pyJoin args.export_repo_path "Application")
        (runStart env) app) := by
    simp only [processApp]
    rw [if_neg hdoc, hparse]
  have hrun : execute_shell env args =
      .error (e, appPrelude (pyJoin args.export_repo_path "Application")
        (runStart env) app) := by
    simp only [execute_shell]
    rw [happs, if_pos hidx]
    unfold processApps
    rw [hPA]
  rw [hrun]
  refine ⟨rfl, rfl, ?_⟩
  simp [runStateOf, appPrelude, runStart, initRunState]

/-- C2 witness: the amended claim at the concrete two-application run. -/
theorem c2_inspection_failure_propagates_witness :
    appBad.SDMPackageXML ≠ "" ∧
    (isAborted (execute_shell envC2 argsNoPrune) = true ∧
    runErrMsg (execute_shell envC2 argsNoPrune) = "MalformedDocumentError" ∧
    (runStateOf (execute_shell envC2 argsNoPrune)).written_definitions =
      [(pyJoin (pyJoin (pyJoin argsNoPrune.export_repo_path "Application")
        (pySplitLast '/' appBad.ModelName)) "application.json", appBad)]) :=
  ⟨by decide, c2_inspection_failure_propagates envC2 argsNoPrune appBad
    [appGood] "MalformedDocumentError" (by rfl) (by rfl) (by decide)
    (by rfl)⟩

/-- C3: the claim states each transfer is independent, failures are logged
and skipped and the file transfer operation never raises to its caller.
The call site in the transfer loop binds only smb_source_path and
local_destination_path, leaving the required file_relative_path parameter
unbound, so Python raises TypeError at the call itself (before the body's
catch-all can run) and the pass aborts on its first entry. -/
theorem c3_transfer_call_missing_required_argument :
    missingRequiredArgs tryCopyRequiredParams transferCallKeywords =
      ["file_relative_path"] ∧
    isAborted (transferAll (fun _ _ => true) initRunState [entryC3]) = true ∧
    runErrMsg (transferAll (fun _ _ => true) initRunState [entryC3]) =
      "TypeError: try_copy_smb_file_to_local() missing 1 required positional argument: file_relative_path" :=
  ⟨by rfl, by rfl, by rfl⟩

/-- C4: the claim states the uninstall root location is resolved from a
possibly distinct uninstall specific content id.  On a document carrying a
distinct uninstall content id Content_2 whose location differs from the
install location, the code registers the uninstall command's file with its
source under the install content id's location, because the uninstall
branch re-queries InstallContent and indexes install_content_ids. -/
theorem c4_uninstall_location_resolved_from_install_content :
    installerC4.uninstallContentIds = ["Content_2"] ∧
    contentLocations installerC4 "Content_2" = ["\\\\srv\\share\\uninstloc"] ∧
    (runStateOf (inspect_deployment_type_for_exportable_files pyhashLen
      stExportPath dtC4)).exportable_files.map
      (fun en => en.source_path) = ["//srv/share/instloc/remove.ps1"] ∧
    isAborted (inspect_deployment_type_for_exportable_files pyhashLen
      stExportPath dtC4) = false ∧
    ("//srv/share/instloc/remove.ps1" : String) ≠
      "//srv/share/uninstloc/remove.ps1" :=
  ⟨by rfl, by rfl, by rfl, by rfl, by decide⟩

/-- C5 counterexample: a deployment type whose install command has an
unterminated quote makes the whole run abort with the tokenizer's
no-closing-quotation error; the claim's statement that the caller treats
the command as contributing zero files and continues the run is false. -/
theorem c5_malformed_quote_aborts_run_counterexample :
    get_exportable_files_from_command "install.ps1 \"unterminated" =
      .error "No closing quotation" ∧
    isAborted (execute_shell envC5 argsNoPrune) = true ∧
    runErrMsg (execute_shell envC5 argsNoPrune) = "No closing quotation" :=
  ⟨by rfl, by rfl, by rfl⟩

/-- C5 amended: a malformed command string makes
get_exportable_files_from_command fail with the tokenizer's ValueError; no
caller catches it, so the deployment type inspection that reached the
command propagates the error (with the state unchanged by that command)
instead of contributing zero files. -/
theorem c5_malformed_quote_error_propagates (pyhash : String → Int)
    (st : RunState) (dt : DeploymentType) (installer : InstallerNode)
    (n cid loc cmd e : String) (locs : List String)
    (hin : dt.installers = [installer])
    (hn : dt.logicalNames = [n])
    (hcid : installer.installContentIds = [cid])
    (hloc : contentLocations installer cid = loc :: locs)
    (hcmd : installer.installCommandLines = [cmd])
    (herr : get_exportable_files_from_command cmd = .error e) :
    inspect_deployment_type_for_exportable_files pyhash st dt =
      .error (e, st) := by
  have hip : installPhase pyhash st installer
      (pyJoin st.files_export_path n) = .error (e, st) := by
    simp only [installPhase, hcid, hloc, hcmd, herr]
  simp only [inspect_deployment_type_for_exportable_files, hin, hn, hip]

/-- C5 witness: the amended claim at the concrete deployment type whose
install command is install.ps1 followed by an unterminated quote. -/
theorem c5_malformed_quote_error_propagates_witness :
    get_exportable_files_from_command "install.ps1 \"unterminated" =
      .error "No closing quotation" ∧
    inspect_deployment_type_for_exportable_files pyhashLen initRunState dtC5
      = .error ("No closing quotation", initRunState) :=
  ⟨by rfl, c5_malformed_quote_error_propagates pyhashLen initRunState dtC5
    installerC5 "DT_1" "Content_1" "\\\\srv\\share\\pkg"
    "install.ps1 \"unterminated" "No closing quotation" [] (by rfl) (by rfl)
    (by rfl) (by rfl) (by rfl) (by rfl)⟩

/-- C6: registration is idempotent on the normalized (source, destination)
pair: starting from an empty registry, a non-empty sequence of registration
calls that all normalize to the same pair leaves exactly one CatalogEntry,
the entry of that pair, and the whole sequence equals its first call (every
later call is a no-op). -/
theorem c6_registration_idempotent (pyhash : String → Int) (st0 : RunState)
    (c : RegCall) (rest : List RegCall)
    (hdict : st0.exportable_files_by_srcdst_hash = [])
    (hfiles : st0.exportable_files = [])
    (hsame : ∀ d ∈ rest, regPair d = regPair c) :
    registerAll pyhash st0 (c :: rest) = register1 pyhash st0 c ∧
    (registerAll pyhash st0 (c :: rest)).exportable_files = [entryOf c] := by
  have hany0 : st0.exportable_files_by_srcdst_hash.any
      (fun kv => kv.1 = fingerprintOf pyhash c) = false := by
    rw [hdict]; rfl
  obtain ⟨hf, hd⟩ := register1_fresh pyhash st0 c hany0
  have hnoop : registerAll pyhash (register1 pyhash st0 c) rest =
      register1 pyhash st0 c := by
    apply registerAll_noop
    intro d hdm
    rw [hd, hdict, fingerprintOf_congr pyhash c d (hsame d hdm)]
    simp
  have hmain : registerAll pyhash st0 (c :: rest) =
      register1 pyhash st0 c := by
    unfold registerAll
    exact hnoop
  refine ⟨hmain, ?_⟩
  rw [hmain, hf, hfiles]
  simp

/-- C6 witness: two calls whose raw roots differ by a trailing backslash
normalize to one pair and collapse to one catalog entry. -/
theorem c6_registration_idempotent_witness :
    regPair regCallB = regPair regCallA ∧
    (registerAll pyhashLen initRunState [regCallA, regCallB] =
      register1 pyhashLen initRunState regCallA ∧
    (registerAll pyhashLen initRunState
      [regCallA, regCallB]).exportable_files = [entryOf regCallA]) :=
  ⟨by decide, c6_registration_idempotent pyhashLen initRunState regCallA
    [regCallB] (by rfl) (by rfl) (by decide)⟩

/-- C7: the per-application loop body writes the definition file
unconditionally and, when a non-empty document parses, its result is the
deployment type inspection of the parsed document, independent of the
persisted revision oracle: two runs of the body that differ only in the
persisted CIVersion they read produce identical results, so discovery is
never skipped on a revision match. -/
theorem c7_definition_rewrite_and_discovery_independent_of_revision
    (pyhash : String → Int)
    (parseSdm : String → Except String (List DeploymentType))
    (f g : String → Int) (lr : String) (st : RunState) (app : App)
    (dts : List DeploymentType) (hdoc : app.SDMPackageXML ≠ "")
    (hp : parseSdm app.SDMPackageXML = .ok dts) :
    processApp pyhash parseSdm f lr st app =
      processApp pyhash parseSdm g lr st app ∧
    (runStateOf (processApp pyhash parseSdm f lr st app)).written_definitions
      = st.written_definitions ++
        [(pyJoin (pyJoin lr (pySplitLast '/' app.ModelName))
          "application.json", app)] ∧
    processApp pyhash parseSdm f lr st app =
      inspectAll pyhash (appPrelude lr st app) dts := by
  have k1 := processApp_eq_inspectAll pyhash parseSdm f lr st app dts hdoc hp
  have k2 := processApp_eq_inspectAll pyhash parseSdm g lr st app dts hdoc hp
  refine ⟨k1.trans k2.symm, ?_, k1⟩
  rw [k1, inspectAll_written]
  rfl

/-- C7 witness: the loop body for the concrete application, read once with
a persisted revision equal to the fetched one and once with a different
persisted revision. -/
theorem c7_definition_rewrite_and_discovery_independent_of_revision_witness :
    appC1.SDMPackageXML ≠ "" ∧
    (processApp pyhashLen envC1.parseSdm (fun _ => 3) "/repo/Application"
        initRunState appC1 =
      processApp pyhashLen envC1.parseSdm (fun _ => 99) "/repo/Application"
        initRunState appC1 ∧
    (runStateOf (processApp pyhashLen envC1.parseSdm (fun _ => 3)
      "/repo/Application" initRunState appC1)).written_definitions =
      initRunState.written_definitions ++
        [(pyJoin (pyJoin "/repo/Application"
          (pySplitLast '/' appC1.ModelName)) "application.json", appC1)] ∧
    processApp pyhashLen envC1.parseSdm (fun _ => 3) "/repo/Application"
        initRunState appC1 =
      inspectAll pyhashLen
        (appPrelude "/repo/Application" initRunState appC1) [dtC1]) :=
  ⟨by decide,
    c7_definition_rewrite_and_discovery_independent_of_revision pyhashLen
      envC1.parseSdm (fun _ => 3) (fun _ => 99) "/repo/Application"
      initRunState appC1 [dtC1] (by decide) (by rfl)⟩

/-- C8: on the given command string with the default extension set, the
tokenizer returns exactly install.ps1 and the quoted readme path normalized
to forward slashes, in input order, excluding the URI token and the
leading-double-separator network token. -/
theorem c8_tokenizer_example_classification :
    get_exportable_files_from_command
      "install.ps1 /silent \"C:\\Program Files\\x\\readme.txt\" http://example.com/x.bat \\\\server\\share\\x.cmd"
      = .ok ["install.ps1", "C:/Program Files/x/readme.txt"] := by rfl

/-- C9 counterexample: the token ./install.ps1 is accepted and returned
unchanged, not stripped to install.ps1, so the claim that the stripped
local-relative marker is the forward slash form ./ is false. -/
theorem c9_forward_slash_marker_not_stripped_counterexample :
    get_exportable_files_from_command "./install.ps1" =
      .ok ["./install.ps1"] ∧
    ("./install.ps1" : String) ≠ "install.ps1" :=
  ⟨by rfl, by decide⟩

/-- C9 amended: the local-relative marker the tokenizer strips is the
backslash form (dot backslash): every accepted token whose quote-stripped
form begins with that marker is returned with those two characters removed
and backslashes normalized to forward slashes. -/
theorem c9_backslash_marker_stripped (t r : String)
    (hm : strStartsWithL ['.', '\\'] (pyStrip ['\"', '\''] t) = true)
    (hr : tokenToFile (defaultValidExtensions.map pyLower) t = some r) :
    r = pyReplaceChar '\\' '/'
      (chStr ((strChars (pyStrip ['\"', '\''] t)).drop 2)) := by
  simp only [tokenToFile, hm, if_true] at hr
  split at hr
  · exact Option.noConfusion hr
  · split at hr
    · exact (Option.some.inj hr).symm
    · exact Option.noConfusion hr

/-- C9 witness: the token dot backslash install.ps1 is returned as
install.ps1. -/
theorem c9_backslash_marker_stripped_witness :
    tokenToFile (defaultValidExtensions.map pyLower) ".\\install.ps1" =
      some "install.ps1" ∧
    "install.ps1" = pyReplaceChar '\\' '/'
      (chStr ((strChars (pyStrip ['\"', '\''] ".\\install.ps1")).drop 2)) :=
  ⟨by rfl, c9_backslash_marker_stripped ".\\install.ps1" "install.ps1"
    (by rfl) (by rfl)⟩

/-- C10: a deployment type with one installer node and one logical name,
whose uninstall setting is present, singular and neither NoneRequired nor
SameAsInstall, and whose install content id count is not one, makes the
inspection read the uninstall content location before assignment and raise
UnboundLocalError instead of skipping the uninstall phase. -/
theorem c10_uninitialized_uninstall_location (pyhash : String → Int)
    (st : RunState) (dt : DeploymentType) (installer : InstallerNode)
    (n s : String)
    (hin : dt.installers = [installer])
    (hn : dt.logicalNames = [n])
    (hs : installer.uninstallSettings = [s])
    (hnr : s ≠ "NoneRequired")
    (hsi : s ≠ "SameAsInstall")
    (hids : installer.installContentIds.length ≠ 1) :
    inspect_deployment_type_for_exportable_files pyhash st dt =
      .error ("UnboundLocalError: local variable referenced before assignment",
        st) := by
  rcases hshape : installer.installContentIds with _ | ⟨a, _ | ⟨b, t⟩⟩
  · have hip : installPhase pyhash st installer
        (pyJoin st.files_export_path n) = .ok (st, "") := by
      simp only [installPhase, hshape]
    have hres : uninstallLocationResolve installer installer.installContentIds
        "" st s = .ok none := by
      simp only [uninstallLocationResolve, hshape, if_neg hsi]
    simp only [inspect_deployment_type_for_exportable_files, hin, hn, hip, hs,
      if_neg hnr, hres]
  · rw [hshape] at hids
    simp at hids
  · have hip : installPhase pyhash st installer
        (pyJoin st.files_export_path n) = .ok (st, "") := by
      simp only [installPhase, hshape]
    have hres : uninstallLocationResolve installer installer.installContentIds
        "" st s = .ok none := by
      simp only [uninstallLocationResolve, hshape, if_neg hsi]
    simp only [inspect_deployment_type_for_exportable_files, hin, hn, hip, hs,
      if_neg hnr, hres]

/-- C10 witness: the concrete deployment type with zero install content ids
and uninstall setting Uninstall raises the uninitialized variable error. -/
theorem c10_uninitialized_uninstall_location_witness :
    installerC10.installContentIds.length ≠ 1 ∧
    inspect_deployment_type_for_exportable_files pyhashLen initRunState dtC10
      = .error ("UnboundLocalError: local variable referenced before assignment",
        initRunState) :=
  ⟨by decide, c10_uninitialized_uninstall_location pyhashLen initRunState
    dtC10 installerC10 "DT_1" "Uninstall" (by rfl) (by rfl) (by rfl)
    (by decide) (by decide) (by decide)⟩
